import Mathlib

/-!
Shallow embedding of the AniGiffy GIF-building core
(src/models/project.py, src/services/gif_builder.py,
src/services/image_processor.py), together with theorems settling the
frozen claims about its specification.

Conventions of the embedding:
* Python ints are `ℤ`; Python `//` and `%` on ints are `Int.fdiv` and
  `Int.fmod` (floor division, sign-of-divisor remainder — exactly
  Python's semantics).
* A PIL image in RGBA mode is a flat list of pixels.  `prepare_frame`
  manipulates 8-bit integer pixel tuples, modelled by `NPixel` over `ℕ`;
  `PIL.Image.blend` interpolates channels, modelled exactly over `ℚ` by
  `QPixel` (PIL additionally rounds the result back to 8 bits when
  storing; the interpolation itself is the formula embedded here).
* Python dicts holding the project's wire shape are association lists
  `List (String × DVal)` in declaration order.
* Reads of external state (file existence, PIL decoding) are passed in
  as explicit function arguments.
-/

namespace AniGiffy

/-! ### Pixel and image model -/

/-- An RGBA pixel with rational channels, the model of a PIL pixel as
manipulated arithmetically by `PIL.Image.blend`. -/
structure QPixel where
  r : ℚ
  g : ℚ
  b : ℚ
  a : ℚ
deriving DecidableEq, Repr

instance : Inhabited QPixel := ⟨⟨0, 0, 0, 0⟩⟩

/-- An image in RGBA mode: a flat list of pixels. -/
abbrev QImage : Type := List QPixel

/-- Model of `PIL.Image.blend(im1, im2, alpha)` on one pixel channel pair:
PIL computes `im1 + alpha * (im2 - im1)` on every channel. -/
def blendPixel (alpha : ℚ) (p q : QPixel) : QPixel :=
  ⟨p.r + alpha * (q.r - p.r),
   p.g + alpha * (q.g - p.g),
   p.b + alpha * (q.b - p.b),
   p.a + alpha * (q.a - p.a)⟩

/-- Model of `PIL.Image.blend(im1, im2, alpha)`: channelwise interpolation over
all pixels of two same-size RGBA images. -/
def imageBlend (im1 im2 : QImage) (alpha : ℚ) : QImage :=
  List.zipWith (blendPixel alpha) im1 im2

/-! ### GifBuilder.create_transition_frames
(src/services/gif_builder.py lines 15-44)

Both inputs are converted to RGBA mode first; in this model every
`QImage` is already RGBA.  The Python loop `for i in range(1, steps + 1)`
appends `Image.blend(img1, img2, i / (steps + 1))`; `steps` is a Python
int, and `range(1, steps + 1)` has `max 0 steps = steps.toNat`
iterations. -/

def createTransitionFrames (img1 img2 : QImage) (steps : ℤ) : List QImage :=
  (List.range' 1 steps.toNat).map
    (fun i : ℕ => imageBlend img1 img2 ((i : ℚ) / ((steps : ℚ) + 1)))

/-! ### ImageProcessor.prepare_frame, alpha-policy stage
(src/services/image_processor.py lines 157-179)

The claims about `prepare_frame` concern the alpha-policy stage applied
after the resize: the pixel loop for `transparent=True` and the
flatten-to-background for `transparent=False`.  Pixels here are the
8-bit integer 4-tuples the Python loop reads and writes. -/

/-- An 8-bit RGBA pixel tuple as read by `img.load()` in
`prepare_frame`. -/
structure NPixel where
  r : ℕ
  g : ℕ
  b : ℕ
  a : ℕ
deriving DecidableEq, Repr

/-- An opaque RGB pixel of the flattened (non-transparent) output. -/
structure RGBPixel where
  r : ℕ
  g : ℕ
  b : ℕ
deriving DecidableEq, Repr

/-- The body of the pixel loop in `prepare_frame` when
`transparent=True`: `if a < alpha_threshold: pixels[x,y] = (0,0,0,0)
else: pixels[x,y] = (r,g,b,255)`.  `alpha_threshold` is a Python int
from the settings dict. -/
def binarizePixel (alphaThreshold : ℤ) (p : NPixel) : NPixel :=
  if (p.a : ℤ) < alphaThreshold then ⟨0, 0, 0, 0⟩ else ⟨p.r, p.g, p.b, 255⟩

/-- The whole `transparent=True` pixel loop of `prepare_frame`: every
pixel of the image is rewritten by `binarizePixel`. -/
def applyTransparency (alphaThreshold : ℤ) (img : List NPixel) : List NPixel :=
  img.map (binarizePixel alphaThreshold)

/-- Model of `background.paste(img, mask=img.split()[3])` on one pixel: PIL
composites the source over the background using the 8-bit alpha as the
blend mask, `out = (src * a + bg * (255 - a)) / 255` per channel in
fixed point (exact at `a = 0` and `a = 255`, which is all the theorems
use). -/
def compositePixel (bg : RGBPixel) (p : NPixel) : RGBPixel :=
  ⟨(p.r * p.a + bg.r * (255 - p.a)) / 255,
   (p.g * p.a + bg.g * (255 - p.a)) / 255,
   (p.b * p.a + bg.b * (255 - p.a)) / 255⟩

/-- The `transparent=False` branch of `prepare_frame`: create a solid
RGB background of the (hex-decoded) `backgroundColor` and paste the
RGBA image onto it with its alpha channel as mask.  `bg` is the output
of `hex_to_rgb(background_color)`. -/
def flattenToBackground (bg : RGBPixel) (img : List NPixel) : List RGBPixel :=
  img.map (compositePixel bg)

/-! ### models/project.py: Frame and Project -/

/-- A frame of the animation (src/models/project.py lines 7-13):
`id`, `file`, `duration`. -/
structure Frame where
  id : String
  file : String
  duration : ℤ
deriving DecidableEq, Repr

/-- The `self.settings` dict as created by `Project.__init__`
(src/models/project.py lines 39-47).  `__init__` stores exactly seven
keys; `transitionTime` and `transitionSteps` are keys the dict may in
principle carry (``build_gif`` reads them with `.get` and a default)
but which no code in the repository ever stores, so they are `Option`
fields that `__init__` leaves at `none`. -/
structure Settings where
  width : ℤ
  height : ℤ
  loop : ℤ
  defaultDuration : ℤ
  transparent : Bool
  backgroundColor : String
  alphaThreshold : ℤ
  transitionTimeEntry : Option ℤ
  transitionStepsEntry : Option ℤ
deriving DecidableEq, Repr

/-- Read of `project.settings.get('transitionTime', 0)`
(src/services/gif_builder.py line 75). -/
def Settings.transitionTime (s : Settings) : ℤ :=
  s.transitionTimeEntry.getD 0

/-- Read of `project.settings.get('transitionSteps', 5)`
(src/services/gif_builder.py line 76). -/
def Settings.transitionSteps (s : Settings) : ℤ :=
  s.transitionStepsEntry.getD 5

/-- A project (src/models/project.py lines 31-48): name, `created` and
`modified` ISO timestamps (opaque strings here), the settings dict and
the ordered frame list. -/
structure Project where
  name : String
  created : String
  modified : String
  settings : Settings
  frames : List Frame
deriving DecidableEq, Repr

/-- Constructor `Project.__init__(name, width=800, height=600, loop=0,
default_duration=100, transparent=False, background_color='#FFFFFF',
alpha_threshold=128)`.  `datetime.utcnow().isoformat()` is passed in as
`now`.  The settings dict is created with exactly the seven literal
keys; the frame list starts empty. -/
def Project.init (name : String) (now : String)
    (width : ℤ := 800) (height : ℤ := 600) (loop : ℤ := 0)
    (default_duration : ℤ := 100) (transparent : Bool := false)
    (background_color : String := "#FFFFFF")
    (alpha_threshold : ℤ := 128) : Project :=
  { name := name
    created := now
    modified := now
    settings :=
      { width := width
        height := height
        loop := loop
        defaultDuration := default_duration
        transparent := transparent
        backgroundColor := background_color
        alphaThreshold := alpha_threshold
        transitionTimeEntry := none
        transitionStepsEntry := none }
    frames := [] }

/-- Method `Project.reorder_frames(frame_ids)` (src/models/project.py lines
65-77): build `frame_map = {f.id: f for f in self.frames}` (a Python
dict comprehension, so for duplicate ids the LAST frame wins) and keep,
in the order of `frame_ids`, each id's mapped frame, dropping ids not
in the map.  `frameMapLookup` is `frame_map[fid]` together with the
`fid in frame_map` test. -/
def frameMapLookup (frames : List Frame) (fid : String) : Option Frame :=
  frames.reverse.find? (fun f => f.id == fid)

/-- The new frame order computed by `reorder_frames` (the method then
assigns it to `self.frames` and touches `modified`; the claims are
about the resulting order). -/
def Project.reorderFrames (p : Project) (frame_ids : List String) : Project :=
  { p with frames := frame_ids.filterMap (frameMapLookup p.frames) }

/-! ### models/project.py: validation
(src/models/project.py lines 170-190) -/

/-- The configuration limits `config.QUOTAS` consulted by `validate`
and `build_gif` (src/config.py lines 20-28). -/
structure Quotas where
  maxDimension : ℤ
  maxFrames : ℤ
  maxOutputSize : ℕ
deriving DecidableEq, Repr

/-- One entry of the `errors` list built by `Project.validate`,
structured instead of the formatted message string. -/
inductive ValidationError where
  | widthExceedsMaximum (maxDimension : ℤ)
  | heightExceedsMaximum (maxDimension : ℤ)
  | frameCountExceedsMaximum (maxFrames : ℤ)
  | invalidFrameDuration (id : String) (duration : ℤ)
deriving DecidableEq, Repr

/-- Method `Project.validate(config)`: append an error for width over the
limit, then height, then frame count, then one per frame whose
duration is `< 1`; return `(len(errors) == 0, errors)`. -/
def Project.validate (p : Project) (q : Quotas) : Bool × List ValidationError :=
  let widthErrors : List ValidationError :=
    if p.settings.width > q.maxDimension
      then [.widthExceedsMaximum q.maxDimension] else []
  let heightErrors : List ValidationError :=
    if p.settings.height > q.maxDimension
      then [.heightExceedsMaximum q.maxDimension] else []
  let countErrors : List ValidationError :=
    if (p.frames.length : ℤ) > q.maxFrames
      then [.frameCountExceedsMaximum q.maxFrames] else []
  let durationErrors : List ValidationError :=
    p.frames.filterMap (fun f =>
      if f.duration < 1 then some (.invalidFrameDuration f.id f.duration) else none)
  let errors := widthErrors ++ heightErrors ++ countErrors ++ durationErrors
  (errors.length = 0, errors)

/-! ### models/project.py: the persisted wire shape
(`Frame.to_dict`/`from_dict` lines 15-28, `Project.to_dict` lines
114-122, `Project.from_dict` lines 133-156)

A JSON value stored in the settings dict.  Python stores these untyped;
the wire documents this model works with are well-typed, and a `get`
with a default reads the stored value when the key is present. -/

inductive DVal where
  | vInt (z : ℤ)
  | vBool (b : Bool)
  | vStr (s : String)
deriving DecidableEq, Repr

/-- Python `d.get(key, default)` for an int-valued settings key. -/
def getIntD (l : List (String × DVal)) (k : String) (d : ℤ) : ℤ :=
  match l.lookup k with
  | some (.vInt z) => z
  | _ => d

/-- Python `d.get(key, default)` for a bool-valued settings key. -/
def getBoolD (l : List (String × DVal)) (k : String) (d : Bool) : Bool :=
  match l.lookup k with
  | some (.vBool b) => b
  | _ => d

/-- Python `d.get(key, default)` for a string-valued settings key. -/
def getStrD (l : List (String × DVal)) (k : String) (d : String) : String :=
  match l.lookup k with
  | some (.vStr s) => s
  | _ => d

/-- The dict produced by `Frame.to_dict` and consumed by
`Frame.from_dict`: `file` is required (`data['file']`), `id` and
`duration` are read with `.get`. -/
structure FrameDict where
  idEntry : Option String
  file : String
  durationEntry : Option ℤ
deriving DecidableEq, Repr

/-- Method `Frame.to_dict()`: `{'id': ..., 'file': ..., 'duration': ...}`,
every key present. -/
def Frame.toDict (f : Frame) : FrameDict :=
  { idEntry := some f.id, file := f.file, durationEntry := some f.duration }

/-- Method `Frame.from_dict(data)`: `file_path=data['file']`,
`duration=data.get('duration', 100)`, `frame_id=data.get('id')`; when
`frame_id` is falsy `Frame.__init__` generates
`f"frame-{uuid.uuid4().hex[:8]}"`, modelled by the caller-supplied
fresh id `gen`. -/
def Frame.fromDict (gen : String) (d : FrameDict) : Frame :=
  { id := d.idEntry.getD gen
    file := d.file
    duration := d.durationEntry.getD 100 }

/-- The dict produced by `Project.to_dict` and consumed by
`Project.from_dict`.  The settings dict is kept as an association list
in insertion order so key presence is observable. -/
structure ProjectDict where
  name : String
  createdEntry : Option String
  modifiedEntry : Option String
  settings : List (String × DVal)
  frames : List FrameDict
deriving DecidableEq, Repr

/-- The settings dict as serialized by `Project.to_dict` (it emits
`self.settings` verbatim): the seven keys `__init__` created, in the
literal's order, followed by the ad-hoc transition keys in the
(unreachable through this repository's code) case that they were ever
stored. -/
def Settings.toDict (s : Settings) : List (String × DVal) :=
  [("width", .vInt s.width),
   ("height", .vInt s.height),
   ("loop", .vInt s.loop),
   ("defaultDuration", .vInt s.defaultDuration),
   ("transparent", .vBool s.transparent),
   ("backgroundColor", .vStr s.backgroundColor),
   ("alphaThreshold", .vInt s.alphaThreshold)]
  ++ (match s.transitionTimeEntry with
      | some t => [("transitionTime", DVal.vInt t)]
      | none => [])
  ++ (match s.transitionStepsEntry with
      | some t => [("transitionSteps", DVal.vInt t)]
      | none => [])

/-- Method `Project.to_dict()`: `name`, `created`, `modified`, `settings`,
`frames` (each frame through `Frame.to_dict`). -/
def Project.toDict (p : Project) : ProjectDict :=
  { name := p.name
    createdEntry := some p.created
    modifiedEntry := some p.modified
    settings := p.settings.toDict
    frames := p.frames.map Frame.toDict }

/-- Method `Project.from_dict(data)`: construct via `cls(...)` passing exactly
the seven recognized settings keys read with `.get` and their
`__init__` defaults (any `transitionTime`/`transitionSteps` entry of
the incoming settings dict is dropped), then overwrite
`created`/`modified` from the data (defaulting to `utcnow`, passed as
`now`), then append each frame via `Frame.from_dict`; `genId i` is the
uuid-generated id for the `i`-th frame should it lack one. -/
def Project.fromDict (now : String) (genId : ℕ → String) (d : ProjectDict) : Project :=
  let s := d.settings
  let base := Project.init d.name now
    (getIntD s "width" 800) (getIntD s "height" 600) (getIntD s "loop" 0)
    (getIntD s "defaultDuration" 100) (getBoolD s "transparent" false)
    (getStrD s "backgroundColor" "#FFFFFF") (getIntD s "alphaThreshold" 128)
  { base with
    created := d.createdEntry.getD now
    modified := d.modifiedEntry.getD now
    frames := (d.frames.enum).map (fun ie => Frame.fromDict (genId ie.1) ie.2) }

/-! ### services/gif_builder.py: build_gif
(src/services/gif_builder.py lines 46-206)

The build is decomposed into its phases exactly as the Python function
is laid out: the pre-checks (lines 60-84), the frame
resolution/preparation loop (lines 86-121), the display-sequence
construction (lines 136-170), and the size enforcement after saving
(lines 193-202). -/

/-- A structured failure returned by `build_gif` as a
`(False, message, 0)` triple. -/
inductive BuildError where
  | noFrames
  | validationFailed (errors : List ValidationError)
  | frameDurationLtTransitionTime (duration transitionTime : ℤ)
  | transitionStepsLt1
  | noValidFrames
  | outputTooLarge (actualBytes : ℕ)
deriving DecidableEq, Repr

/-- The pre-checks of `build_gif` (lines 60-84), run before any frame
is touched: empty frame list; `project.validate` (whose collected
errors are all joined into one failure message); then, when
`transitionTime > 0`, a loop over the frames returning at the FIRST
frame whose duration is below the transition time, and after that loop
a check that `transitionSteps >= 1`.  Returns `none` when the build
proceeds. -/
def buildGifPrecheck (p : Project) (q : Quotas) : Option BuildError :=
  if p.frames.length = 0 then some .noFrames
  else
    let v := p.validate q
    if !v.1 then some (.validationFailed v.2)
    else
      let tTime := p.settings.transitionTime
      let tSteps := p.settings.transitionSteps
      if 0 < tTime then
        match p.frames.find? (fun f => f.duration < tTime) with
        | some f => some (.frameDurationLtTransitionTime f.duration tTime)
        | none => if tSteps < 1 then some .transitionStepsLt1 else none
      else none

/-- The frame loading loop of `build_gif` (lines 86-121): for each
frame in order, resolve `safe_path` + existence check +
`prepare_frame`; any failure (missing file, preparation returning
`None`, or an exception) logs and `continue`s, otherwise the prepared
image and the frame's duration are appended.  The whole per-frame
pipeline is the caller-supplied `resolve`; a frame it maps to `none`
is skipped. -/
def prepareFrames (resolve : Frame → Option QImage) (frames : List Frame) :
    List (QImage × ℤ) :=
  frames.filterMap (fun f => (resolve f).map (fun img => (img, f.duration)))

/-- Line 120-121: after the loading pass, fail with "No valid frames to
create GIF" exactly when the prepared list is empty. -/
def noValidFramesAfterResolution (resolve : Frame → Option QImage)
    (frames : List Frame) : Bool :=
  (prepareFrames resolve frames).length = 0

/-- The per-transition-frame durations of lines 158-166:
`transition_frame_duration = transition_time // transition_steps`,
`remainder = transition_time % transition_steps`, and for `j` over the
produced transition frames (`transitionSteps.toNat` of them) the
duration is the quotient, plus the remainder on the last one. -/
def transDurations (tTime tSteps : ℤ) : List ℤ :=
  let n := tSteps.toNat
  (List.range n).map (fun j =>
    tTime.fdiv tSteps + (if j = n - 1 then tTime.fmod tSteps else 0))

/-- Lines 151-166: synthesize the transition frames between `curr` and
`next`, convert each through `to_gif_format` (`toGif`), and pair each
with its duration.  `enumerate(transition_frames)` is `List.enum`. -/
def transitionChunk (toGif : QImage → β) (curr next : QImage)
    (tTime tSteps : ℤ) : List (β × ℤ) :=
  let tfs := createTransitionFrames curr next tSteps
  (tfs.enum).map (fun jf =>
    (toGif jf.2,
     tTime.fdiv tSteps +
       (if jf.1 = tfs.length - 1 then tTime.fmod tSteps else 0)))

/-- One iteration of the sequence-building loop (lines 140-170) at
index `i`: `curr = prepared_frames[i]`, `next = prepared_frames[(i+1) %
n]` (wraparound); with transitions the main frame is emitted with
`duration - transition_time` followed by the transition chunk,
otherwise the frame is emitted with its full duration. -/
def buildChunk (toGif : QImage → β) (prepared : List (QImage × ℤ))
    (tTime tSteps : ℤ) (i : ℕ) : List (β × ℤ) :=
  let n := prepared.length
  let curr := (prepared.getD i (default, 0)).1
  let currDuration := (prepared.getD i (default, 0)).2
  let next := (prepared.getD ((i + 1) % n) (default, 0)).1
  if 0 < tTime then
    (toGif curr, currDuration - tTime) ::
      transitionChunk toGif curr next tTime tSteps
  else
    [(toGif curr, currDuration)]

/-- The full display sequence (`gif_frames` zipped with
`gif_durations`) built by the loop `for i in
range(len(prepared_frames))`.  `toGif` is `to_gif_format` (line
124-134), the per-frame adaptive-palette quantization, opaque to these
theorems. -/
def buildSequence (toGif : QImage → β) (prepared : List (QImage × ℤ))
    (tTime tSteps : ℤ) : List (β × ℤ) :=
  (List.range prepared.length).flatMap (buildChunk toGif prepared tTime tSteps)

/-- The size enforcement after saving (lines 193-202): stat the written
file; if its size exceeds `max_output_size`, unlink it and return
failure with size 0, else return success with the actual size.  Result
is `(success, reportedSize, fileKeptOnDisk)`. -/
def finalizeOutput (maxOutputSize fileSize : ℕ) : Bool × ℕ × Bool :=
  if fileSize > maxOutputSize then (false, 0, false) else (true, fileSize, true)

/-! ### services/gif_builder.py: create_preview_gif
(src/services/gif_builder.py lines 208-260) -/

/-- The parameter names accepted by `Project.__init__`
(src/models/project.py line 34-35). -/
def projectInitParams : List String :=
  ["self", "name", "width", "height", "loop", "default_duration",
   "transparent", "background_color", "alpha_threshold"]

/-- The keyword-argument names `create_preview_gif` passes to
`type(project)(...)` when building the truncated preview project
(src/services/gif_builder.py lines 230-241). -/
def previewCtorKwargs : List String :=
  ["name", "width", "height", "loop", "default_duration",
   "transparent", "background_color", "alpha_threshold",
   "transition_time", "transition_steps"]

/-- Python call semantics: a call raises `TypeError` when some keyword
argument is not among the callee's parameter names. -/
def callRaisesTypeError (params kwargs : List String) : Bool :=
  !(kwargs.all (fun k => params.contains k))

/-- The result of `create_preview_gif`: `(success, message)`. -/
structure PreviewResult where
  success : Bool
  message : String
deriving DecidableEq, Repr

/-- Method `GifBuilder.create_preview_gif(project, ..., max_frames=10)`:
reject an empty frame list; truncate to the first `max_frames` frames;
construct a fresh project of the same class carrying the original
settings (the `type(project)(...)` call of lines 230-241 — which
raises `TypeError` when its keyword arguments are not all accepted by
`Project.__init__`, a raise the enclosing `try` turns into a failure
result); run `build_gif` on it (abstracted as `build`, since it
touches the filesystem); and on success with more frames than the cap
rewrite the message to report how many of the total frames were
included.  `now` stands for the timestamps `__init__` would take. -/
def createPreviewGif (p : Project) (now : String)
    (build : Project → Bool × String × ℕ)
    (max_frames : ℕ := 10) : PreviewResult :=
  if p.frames.length = 0 then ⟨false, "Project has no frames"⟩
  else if callRaisesTypeError projectInitParams previewCtorKwargs then
    ⟨false, "Preview creation failed: __init__() got an unexpected keyword argument"⟩
  else
    let framesToUse := p.frames.take max_frames
    let previewProject :=
      { Project.init p.name now p.settings.width p.settings.height
          p.settings.loop p.settings.defaultDuration p.settings.transparent
          p.settings.backgroundColor p.settings.alphaThreshold with
        frames := framesToUse }
    let r := build previewProject
    if r.1 ∧ p.frames.length > max_frames then
      ⟨r.1, "Preview created with " ++ toString max_frames ++ " of " ++
        toString p.frames.length ++ " frames"⟩
    else ⟨r.1, r.2.1⟩

/-! ### Spec-side statement of the §3 invariant

The following definitions follow the SPEC's words, for comparison with
the code's validation behaviour: "Invariant: `width,height ≤
maxDimension`; `len(frames) ≤ maxFrames`; every `frame.durationMs ≥ 1`;
if `transitionDurationMs > 0` then every `frame.durationMs ≥
transitionDurationMs` and `transitionSteps ≥ 1`." -/

/-- One constraint of the spec's §3 invariant, identified per frame
where the constraint is per-frame. -/
inductive SpecConstraint where
  | widthExceeds
  | heightExceeds
  | frameCountExceeds
  | durationBelow1 (id : String) (duration : ℤ)
  | durationBelowTransitionTime (id : String) (duration : ℤ)
  | transitionStepsBelow1
deriving DecidableEq, Repr

/-- Modelled from the spec: the violated constraints among the first
three clauses of the §3 invariant plus the per-frame `durationMs ≥ 1`
clause (the clauses `Project.validate` checks). -/
def specCoreViolations (p : Project) (q : Quotas) : List SpecConstraint :=
  (if p.settings.width > q.maxDimension then [.widthExceeds] else []) ++
  (if p.settings.height > q.maxDimension then [.heightExceeds] else []) ++
  (if (p.frames.length : ℤ) > q.maxFrames then [.frameCountExceeds] else []) ++
  p.frames.filterMap (fun f =>
    if f.duration < 1 then some (.durationBelow1 f.id f.duration) else none)

/-- Modelled from the spec: the violated constraints of the §3
invariant's conditional clause "if `transitionDurationMs > 0` then
every `frame.durationMs ≥ transitionDurationMs` and `transitionSteps ≥
1`". -/
def specTransitionViolations (p : Project) : List SpecConstraint :=
  if 0 < p.settings.transitionTime then
    p.frames.filterMap (fun f =>
      if f.duration < p.settings.transitionTime
        then some (.durationBelowTransitionTime f.id f.duration) else none) ++
    (if p.settings.transitionSteps < 1 then [.transitionStepsBelow1] else [])
  else []

/-- Modelled from the spec: every violated constraint of the full §3
invariant. -/
def specViolations (p : Project) (q : Quotas) : List SpecConstraint :=
  specCoreViolations p q ++ specTransitionViolations p

/-- The §3 constraint a `Project.validate` error message stands for. -/
def ValidationError.toConstraint : ValidationError → SpecConstraint
  | .widthExceedsMaximum _ => .widthExceeds
  | .heightExceedsMaximum _ => .heightExceeds
  | .frameCountExceedsMaximum _ => .frameCountExceeds
  | .invalidFrameDuration id d => .durationBelow1 id d

/-! ### Concrete objects used by witnesses and counterexamples -/

/-- The quotas of `config.QUOTAS` (src/config.py): `max_dimension`
2000, `max_frames` 200, `max_output_size` 20 MiB. -/
def defaultQuotas : Quotas :=
  { maxDimension := 2000, maxFrames := 200, maxOutputSize := 20971520 }

/-- A freshly constructed project, as `Project.__init__` with all
defaults would build it. -/
def sampleProject : Project :=
  Project.init "test" "2024-01-01T00:00:00"

/-- A project whose settings dict carries `transitionTime = 10` and
`transitionSteps = 0` and whose single frame has duration `5`: the §3
invariant is violated twice (frame duration below the transition time,
and transition steps below 1). -/
def projTwoTransitionViolations : Project :=
  { sampleProject with
    settings := { sampleProject.settings with
                  transitionTimeEntry := some 10
                  transitionStepsEntry := some 0 }
    frames := [⟨"f1", "a.png", 5⟩] }

/-- The same project but with `transitionSteps = 1`: only one §3
constraint is violated. -/
def projOneTransitionViolation : Project :=
  { sampleProject with
    settings := { sampleProject.settings with
                  transitionTimeEntry := some 10
                  transitionStepsEntry := some 1 }
    frames := [⟨"f1", "a.png", 5⟩] }

/-! ## Theorems -/

/-- C1: the claim states that preview generation truncates the frame
list, runs the same encode algorithm with all the original settings,
and succeeds whenever a full encode of those truncated frames would
succeed.  In fact `create_preview_gif` can never succeed on a project
with at least one frame: the `type(project)(...)` call passes the
keyword arguments `transition_time` and `transition_steps`, which
`Project.__init__` does not accept, so the call raises `TypeError` and
the enclosing `try` converts it into a failure result — whatever
`build_gif` would have returned. -/
theorem createPreviewGif_never_succeeds (p : Project) (now : String)
    (build : Project → Bool × String × ℕ) (max_frames : ℕ) :
    (createPreviewGif p now build max_frames).success = false := by
  have hty : callRaisesTypeError projectInitParams previewCtorKwargs = true := by
    decide
  unfold createPreviewGif
  by_cases h : p.frames.length = 0 <;> simp [h, hty]

/-- C6: after serialization the output size is measured; an output
larger than the configured `max_output_size` is deleted from disk and
the build returns an explicit failure reporting size 0 (never a
truncated or re-encoded file), while an output within budget is kept
and reported as success with its actual byte size. -/
theorem finalizeOutput_size_enforcement (maxOutputSize fileSize : ℕ) :
    (maxOutputSize < fileSize →
      finalizeOutput maxOutputSize fileSize = (false, 0, false))
  ∧ (fileSize ≤ maxOutputSize →
      finalizeOutput maxOutputSize fileSize = (true, fileSize, true)) := by
  constructor
  · intro h
    simp [finalizeOutput, h]
  · intro h
    simp [finalizeOutput, Nat.not_lt.mpr h]

/-- Witness for C6 at concrete sizes: 30000000 bytes exceeds the 20 MiB
budget and is discarded, 1000 bytes is within budget and kept. -/
theorem finalizeOutput_size_enforcement_witness :
    finalizeOutput 20971520 30000000 = (false, 0, false)
  ∧ finalizeOutput 20971520 1000 = (true, 1000, true) :=
  ⟨(finalizeOutput_size_enforcement 20971520 30000000).1 (by decide),
   (finalizeOutput_size_enforcement 20971520 1000).2 (by decide)⟩

lemma getD_map_of_lt {α β : Type} (f : α → β) (l : List α) (i : ℕ)
    (da : α) (db : β) (hi : i < l.length) :
    (l.map f).getD i db = f (l.getD i da) := by
  rw [List.getD_eq_getElem _ _ (by simpa using hi),
      List.getD_eq_getElem _ _ hi, List.getElem_map]

/-- C5: a frame whose source cannot be resolved or prepared is skipped
— it contributes neither an image nor a duration to the prepared
sequence — and the load pass ends in the "No valid frames to create
GIF" failure exactly when every frame of the project was skipped. -/
theorem buildGif_skips_unresolvable_frames
    (resolve : Frame → Option QImage) (frames l1 l2 : List Frame) (f : Frame)
    (hf : resolve f = none) :
    (noValidFramesAfterResolution resolve frames = true ↔
      ∀ g ∈ frames, resolve g = none)
  ∧ prepareFrames resolve (l1 ++ f :: l2) = prepareFrames resolve (l1 ++ l2) := by
  constructor
  · simp [noValidFramesAfterResolution, prepareFrames, List.length_eq_zero,
      List.filterMap_eq_nil_iff, Option.map_eq_none']
  · simp [prepareFrames, List.filterMap_append, hf]

/-- A resolver that only resolves the frame with id `"a"`, standing for
a session directory holding only that frame's source file. -/
def sampleResolve : Frame → Option QImage :=
  fun f => if f.id = "a" then some [] else none

/-- A resolvable frame. -/
def frameA : Frame := ⟨"a", "a.png", 100⟩

/-- A frame whose source file is missing. -/
def frameB : Frame := ⟨"b", "b.png", 100⟩

/-- Witness for C5: with only `frameA`'s file present, skipping the
missing `frameB` leaves the same prepared sequence as not having it at
all, and the no-valid-frames failure does not fire since `frameA`
resolves. -/
theorem buildGif_skips_unresolvable_frames_witness :
    prepareFrames sampleResolve ([frameA] ++ frameB :: []) =
      prepareFrames sampleResolve ([frameA] ++ []) :=
  (buildGif_skips_unresolvable_frames sampleResolve [frameA, frameB]
    [frameA] [] frameB (by decide)).2

instance : Inhabited NPixel := ⟨⟨0, 0, 0, 0⟩⟩

instance : Inhabited RGBPixel := ⟨⟨0, 0, 0⟩⟩

/-- C7: the alpha policy of `prepare_frame`.  With `transparent=True`
every pixel with alpha strictly below the threshold becomes exactly
`(0,0,0,0)` and every other pixel keeps its RGB with alpha forced to
255, so only alphas 0 and 255 appear.  With `transparent=False` the
image is composited over the solid background colour into an opaque
RGB image of the same size: a fully transparent pixel shows the
background, a fully opaque one keeps its colour. -/
theorem prepare_frame_alpha_policy
    (thr : ℤ) (bg : RGBPixel) (img : List NPixel) (i : ℕ)
    (hi : i < img.length) :
    (applyTransparency thr img).length = img.length
  ∧ (((img.getD i default).a : ℤ) < thr →
      (applyTransparency thr img).getD i default = ⟨0, 0, 0, 0⟩)
  ∧ (¬ (((img.getD i default).a : ℤ) < thr) →
      (applyTransparency thr img).getD i default =
        ⟨(img.getD i default).r, (img.getD i default).g,
         (img.getD i default).b, 255⟩)
  ∧ (∀ q ∈ applyTransparency thr img, q.a = 0 ∨ q.a = 255)
  ∧ (flattenToBackground bg img).length = img.length
  ∧ ((img.getD i default).a = 0 →
      (flattenToBackground bg img).getD i default = bg)
  ∧ ((img.getD i default).a = 255 →
      (flattenToBackground bg img).getD i default =
        ⟨(img.getD i default).r, (img.getD i default).g,
         (img.getD i default).b⟩) := by
  refine ⟨by simp [applyTransparency], ?_, ?_, ?_, by simp [flattenToBackground], ?_, ?_⟩
  · intro h
    rw [applyTransparency, getD_map_of_lt _ _ _ default default hi, binarizePixel, if_pos h]
  · intro h
    rw [applyTransparency, getD_map_of_lt _ _ _ default default hi, binarizePixel, if_neg h]
  · intro q hq
    rcases List.mem_map.mp hq with ⟨p, _, rfl⟩
    by_cases h : (p.a : ℤ) < thr <;> simp [binarizePixel, h]
  · intro h
    rw [flattenToBackground, getD_map_of_lt _ _ _ default default hi, compositePixel, h]
    simp
  · intro h
    rw [flattenToBackground, getD_map_of_lt _ _ _ default default hi, compositePixel, h]
    simp

/-- A two-pixel test image: one pixel fully transparent, one fully
opaque. -/
def sampleImage : List NPixel := [⟨1, 2, 3, 0⟩, ⟨4, 5, 6, 255⟩]

/-- Witness for C7 on `sampleImage` with threshold 128 and background
`(7,8,9)`: the transparent pixel is zeroed under the transparency
policy and shows the background when flattened; the opaque pixel keeps
its colour. -/
theorem prepare_frame_alpha_policy_witness :
    (applyTransparency 128 sampleImage).getD 0 default = ⟨0, 0, 0, 0⟩
  ∧ (flattenToBackground ⟨7, 8, 9⟩ sampleImage).getD 0 default = ⟨7, 8, 9⟩
  ∧ (flattenToBackground ⟨7, 8, 9⟩ sampleImage).getD 1 default = ⟨4, 5, 6⟩ :=
  ⟨(prepare_frame_alpha_policy 128 ⟨7, 8, 9⟩ sampleImage 0 (by decide)).2.1
      (by decide),
   (prepare_frame_alpha_policy 128 ⟨7, 8, 9⟩ sampleImage 0
      (by decide)).2.2.2.2.2.1 (by decide),
   (prepare_frame_alpha_policy 128 ⟨7, 8, 9⟩ sampleImage 1
      (by decide)).2.2.2.2.2.2 (by decide)⟩

/-- C8: `create_transition_frames` returns exactly `steps` frames in
order; the `i`-th produced frame (`i` counted from 0 here, so blend
step `i+1`) is the blend of the two inputs at factor `t = (i+1) /
(steps+1)`; and blending is the per-pixel, per-channel linear
interpolation `A*(1-t) + B*t` (PIL computes it as `A + t*(B-A)`, the
same function).  The embedding is a pure function on lists, so the
inputs are left unmodified and each step's frame is a fresh list. -/
theorem transition_synthesizer_formula
    (img1 img2 : QImage) (steps : ℤ) (i j : ℕ)
    (hs : 1 ≤ steps) (hi : i < steps.toNat)
    (hj : j < min img1.length img2.length) :
    (createTransitionFrames img1 img2 steps).length = steps.toNat
  ∧ (createTransitionFrames img1 img2 steps).getD i default
      = imageBlend img1 img2 (((i : ℚ) + 1) / ((steps : ℚ) + 1))
  ∧ ∀ t : ℚ, (imageBlend img1 img2 t).getD j default
      = ⟨(img1.getD j default).r * (1 - t) + (img2.getD j default).r * t,
         (img1.getD j default).g * (1 - t) + (img2.getD j default).g * t,
         (img1.getD j default).b * (1 - t) + (img2.getD j default).b * t,
         (img1.getD j default).a * (1 - t) + (img2.getD j default).a * t⟩ := by
  have hs0 : (0 : ℤ) ≤ steps := le_trans (by norm_num) hs
  refine ⟨by simp [createTransitionFrames], ?_, ?_⟩
  · have hi' : i < (List.range' 1 steps.toNat).length := by simpa using hi
    rw [createTransitionFrames, getD_map_of_lt _ _ _ 0 default hi',
        List.getD_eq_getElem _ _ hi', List.getElem_range']
    congr 1
    push_cast
    ring
  · intro t
    have hj1 : j < img1.length := lt_of_lt_of_le hj (min_le_left _ _)
    have hj2 : j < img2.length := lt_of_lt_of_le hj (min_le_right _ _)
    have hjz : j < (List.zipWith (blendPixel t) img1 img2).length := by
      simpa using hj
    rw [imageBlend, List.getD_eq_getElem _ _ hjz, List.getElem_zipWith,
        List.getD_eq_getElem _ _ hj1, List.getD_eq_getElem _ _ hj2]
    simp only [blendPixel, QPixel.mk.injEq]
    refine ⟨by ring, by ring, by ring, by ring⟩

/-- A one-pixel black opaque frame. -/
def sampleFrame1 : QImage := [⟨0, 0, 0, 255⟩]

/-- A one-pixel white opaque frame. -/
def sampleFrame2 : QImage := [⟨255, 255, 255, 255⟩]

/-- Witness for C8: with `steps = 2` exactly two transition frames are
produced, and blending the one-pixel frames at `t = 1/3` interpolates
the channels linearly. -/
theorem transition_synthesizer_formula_witness :
    (createTransitionFrames sampleFrame1 sampleFrame2 2).length = 2
  ∧ (imageBlend sampleFrame1 sampleFrame2 (1 / 3)).getD 0 default
      = ⟨0 * (1 - 1 / 3) + 255 * (1 / 3), 0 * (1 - 1 / 3) + 255 * (1 / 3),
         0 * (1 - 1 / 3) + 255 * (1 / 3), 255 * (1 - 1 / 3) + 255 * (1 / 3)⟩ :=
  ⟨(transition_synthesizer_formula sampleFrame1 sampleFrame2 2 0 0
      (by decide) (by decide) (by decide)).1,
   (transition_synthesizer_formula sampleFrame1 sampleFrame2 2 0 0
      (by decide) (by decide) (by decide)).2.2 (1 / 3)⟩

lemma createTransitionFrames_length (a b : QImage) (s : ℤ) :
    (createTransitionFrames a b s).length = s.toNat := by
  simp [createTransitionFrames]

lemma transitionChunk_length (toGif : QImage → β) (c n : QImage) (t s : ℤ) :
    (transitionChunk toGif c n t s).length = s.toNat := by
  simp [transitionChunk, createTransitionFrames_length]

lemma enum_map_snd_comp {α : Type u} {β : Type v} (toGif : α → β) (l : List α) (g : ℕ → ℤ) :
    ((l.enum.map (fun jf => (toGif jf.2, g jf.1))).map Prod.snd)
      = (List.range l.length).map g := by
  rw [List.map_map]
  have h1 : (Prod.snd ∘ fun jf : ℕ × α => (toGif jf.2, g jf.1))
      = g ∘ Prod.fst := rfl
  rw [h1, ← List.map_map, List.enum_map_fst]

lemma transitionChunk_map_snd (toGif : QImage → β) (c n : QImage) (t s : ℤ) :
    (transitionChunk toGif c n t s).map Prod.snd = transDurations t s := by
  simp only [transitionChunk, transDurations, createTransitionFrames_length]
  rw [enum_map_snd_comp toGif (createTransitionFrames c n s)
        (fun j => t.fdiv s + if j = s.toNat - 1 then t.fmod s else 0),
      createTransitionFrames_length]

lemma sum_map_const_nat (n c : ℕ) :
    ((List.range n).map (fun _ => c)).sum = n * c := by
  induction n with
  | zero => simp
  | succ m ih =>
      rw [List.range_succ, List.map_append, List.sum_append, ih]
      simp [Nat.succ_mul]

lemma sum_map_const_int (n : ℕ) (c : ℤ) :
    ((List.range n).map (fun _ => c)).sum = n * c := by
  induction n with
  | zero => simp
  | succ m ih =>
      rw [List.range_succ, List.map_append, List.sum_append, ih]
      simp
      ring

lemma transDurations_sum (tTime tSteps : ℤ) (hS : 1 ≤ tSteps) :
    (transDurations tTime tSteps).sum = tTime := by
  have hnn : (0 : ℤ) ≤ tSteps := le_trans (by norm_num) hS
  have hcast : ((tSteps.toNat : ℤ)) = tSteps := Int.toNat_of_nonneg hnn
  obtain ⟨m, hm⟩ : ∃ m, tSteps.toNat = m + 1 := ⟨tSteps.toNat - 1, by omega⟩
  unfold transDurations
  simp only [hm]
  rw [List.range_succ, List.map_append, List.sum_append]
  have h1 : (List.range m).map
        (fun j => tTime.fdiv tSteps +
          if j = m + 1 - 1 then tTime.fmod tSteps else 0)
      = (List.range m).map (fun _ => tTime.fdiv tSteps) := by
    apply List.map_congr_left
    intro j hj
    rw [List.mem_range] at hj
    simp [Nat.ne_of_lt hj]
  rw [h1, sum_map_const_int]
  have hms : ((m : ℤ) + 1) = tSteps := by
    rw [← hcast, hm]
    push_cast
    ring
  have hlaw := Int.fdiv_add_fmod tTime tSteps
  simp only [List.map_cons, List.map_nil, List.sum_cons, List.sum_nil,
    Nat.add_sub_cancel, eq_self_iff_true, if_true, add_zero]
  linear_combination hlaw + tTime.fdiv tSteps * hms

/-- C2: the display sequence built by `build_gif` has `n + n * steps`
entries when the transition time is positive (each of the `n` prepared
frames is followed by `steps` transition frames, the last wrapping
around to the first), and exactly `n` entries when the transition time
is zero. -/
theorem build_sequence_frame_count (toGif : QImage → β)
    (prepared : List (QImage × ℤ)) (tTime tSteps : ℤ)
    (_hn : 1 ≤ prepared.length) :
    (0 < tTime → 1 ≤ tSteps →
      (buildSequence toGif prepared tTime tSteps).length
        = prepared.length + prepared.length * tSteps.toNat)
  ∧ (tTime = 0 →
      (buildSequence toGif prepared tTime tSteps).length = prepared.length) := by
  constructor
  · intro hT _
    rw [buildSequence, List.length_flatMap]
    have h1 : (List.range prepared.length).map
          (List.length ∘ buildChunk toGif prepared tTime tSteps)
        = (List.range prepared.length).map (fun _ => 1 + tSteps.toNat) := by
      apply List.map_congr_left
      intro i _
      simp only [Function.comp_apply, buildChunk, if_pos hT, List.length_cons,
        transitionChunk_length]
      omega
    rw [h1, sum_map_const_nat]
    ring
  · intro hT
    rw [buildSequence, List.length_flatMap]
    have h1 : (List.range prepared.length).map
          (List.length ∘ buildChunk toGif prepared tTime tSteps)
        = (List.range prepared.length).map (fun _ => 1) := by
      apply List.map_congr_left
      intro i _
      simp [buildChunk, hT]
    rw [h1, sum_map_const_nat]
    ring

/-- Witness for C2: one prepared frame, transition time 40 and 4
steps, give 1 + 1*4 = 5 sequence entries; with transition time 0 the
single frame stays alone. -/
theorem build_sequence_frame_count_witness :
    (buildSequence (fun img => img) [(sampleFrame1, 100)] 40 4).length = 1 + 1 * 4
  ∧ (buildSequence (fun img => img) [(sampleFrame1, 100)] 0 4).length = 1 :=
  ⟨by
    have h := (build_sequence_frame_count (fun img => img)
      [(sampleFrame1, 100)] 40 4 (by decide)).1 (by decide) (by decide)
    simpa using h,
   (build_sequence_frame_count (fun img => img)
      [(sampleFrame1, 100)] 0 4 (by decide)).2 rfl⟩

/-- C3: with a positive transition time and `steps ≥ 1`, each loop
iteration emits the main frame with duration `durationMs -
transitionDurationMs` followed by the transition frames, whose
durations are `transitionDurationMs // transitionSteps` each except the
last, which also absorbs `transitionDurationMs % transitionSteps`; the
transition durations therefore sum to exactly the transition time. -/
theorem transition_duration_distribution (toGif : QImage → β)
    (prepared : List (QImage × ℤ)) (tTime tSteps : ℤ) (i j : ℕ)
    (hT : 0 < tTime) (hS : 1 ≤ tSteps) :
    (buildChunk toGif prepared tTime tSteps i).map Prod.snd
      = ((prepared.getD i (default, 0)).2 - tTime) :: transDurations tTime tSteps
  ∧ (transDurations tTime tSteps).length = tSteps.toNat
  ∧ (j + 1 < tSteps.toNat →
      (transDurations tTime tSteps).getD j 0 = tTime.fdiv tSteps)
  ∧ (transDurations tTime tSteps).getD (tSteps.toNat - 1) 0
      = tTime.fdiv tSteps + tTime.fmod tSteps
  ∧ (transDurations tTime tSteps).sum = tTime := by
  have hn1 : 1 ≤ tSteps.toNat := by omega
  refine ⟨?_, by simp [transDurations], ?_, ?_, transDurations_sum tTime tSteps hS⟩
  · simp [buildChunk, hT, transitionChunk_map_snd]
  · intro hj
    have hj' : j < (List.range tSteps.toNat).length := by
      simpa using (by omega : j < tSteps.toNat)
    simp only [transDurations]
    rw [getD_map_of_lt _ _ _ 0 0 hj',
        List.getD_eq_getElem _ _ hj', List.getElem_range]
    simp only [if_neg (by omega : ¬ j = tSteps.toNat - 1), add_zero]
  · have hlt : tSteps.toNat - 1 < (List.range tSteps.toNat).length := by
      simpa using (by omega : tSteps.toNat - 1 < tSteps.toNat)
    simp only [transDurations]
    rw [getD_map_of_lt _ _ _ 0 0 hlt,
        List.getD_eq_getElem _ _ hlt, List.getElem_range]
    simp

/-- Witness for C3 at transition time 40 over 4 steps between a frame
of duration 100 and its successor: the main frame is emitted with
duration 60, every transition frame with duration 10, and the
transition durations sum to 40. -/
theorem transition_duration_distribution_witness :
    (buildChunk (fun img => img) [(sampleFrame1, 100), (sampleFrame2, 100)]
        40 4 0).map Prod.snd = (100 - 40) :: transDurations 40 4
  ∧ (transDurations 40 4).sum = 40 := by
  have h := transition_duration_distribution (fun img => img)
    [(sampleFrame1, 100), (sampleFrame2, 100)] 40 4 0 0 (by decide) (by decide)
  exact ⟨by simpa using h.1, h.2.2.2.2⟩

lemma validate_map_toConstraint (p : Project) (q : Quotas) :
    (p.validate q).2.map ValidationError.toConstraint = specCoreViolations p q := by
  unfold Project.validate specCoreViolations
  simp only [List.map_append, List.map_filterMap, apply_ite
    (List.map ValidationError.toConstraint), List.map_cons, List.map_nil,
    ValidationError.toConstraint]
  congr 1
  apply List.filterMap_congr
  intro f _
  by_cases h : f.duration < 1 <;> simp [h, ValidationError.toConstraint]

lemma validate_fst_iff (p : Project) (q : Quotas) :
    (p.validate q).1 = true ↔ (p.validate q).2 = [] := by
  unfold Project.validate
  simp [List.length_eq_zero]

lemma transViolations_nil_iff (p : Project) :
    specTransitionViolations p = [] ↔
      (0 < p.settings.transitionTime →
        (∀ g ∈ p.frames, ¬ g.duration < p.settings.transitionTime) ∧
          1 ≤ p.settings.transitionSteps) := by
  unfold specTransitionViolations
  by_cases h : 0 < p.settings.transitionTime
  · rw [if_pos h, List.append_eq_nil]
    simp only [List.filterMap_eq_nil_iff, h, forall_const]
    constructor
    · rintro ⟨h1, h2⟩
      refine ⟨fun g hg hd => by simpa [hd] using h1 g hg, ?_⟩
      by_contra hs
      rw [if_pos (by omega)] at h2
      exact absurd h2 (by simp)
    · rintro ⟨h1, h2⟩
      refine ⟨fun g hg => by simp [h1 g hg], ?_⟩
      rw [if_neg (by omega)]
  · simp [if_neg h, h]

lemma buildGifPrecheck_eq (p : Project) (q : Quotas)
    (h : ¬ p.frames.length = 0) :
    buildGifPrecheck p q =
      (if !(p.validate q).1 then some (.validationFailed (p.validate q).2)
       else if 0 < p.settings.transitionTime then
         match p.frames.find?
             (fun f => f.duration < p.settings.transitionTime) with
         | some f => some (.frameDurationLtTransitionTime f.duration
             p.settings.transitionTime)
         | none => if p.settings.transitionSteps < 1
             then some .transitionStepsLt1 else none
       else none) := by
  unfold buildGifPrecheck
  rw [if_neg h]

/-- C4 (amended): with at least one frame, the pre-encode checks fail
exactly when some §3 invariant is violated; the dimension, frame-count
and duration-positivity violations are all collected by
`Project.validate` and surfaced together in a single failure; but the
transition-related §3 clauses are checked separately afterwards and
only the FIRST violation found is reported — the first frame whose
duration is below the transition time, else the steps bound. -/
theorem validation_error_reporting (p : Project) (q : Quotas) (f : Frame)
    (hne : p.frames ≠ []) :
    (buildGifPrecheck p q = none ↔ specViolations p q = [])
  ∧ ((p.validate q).2.map ValidationError.toConstraint = specCoreViolations p q)
  ∧ (specCoreViolations p q ≠ [] →
      buildGifPrecheck p q = some (.validationFailed (p.validate q).2))
  ∧ (specCoreViolations p q = [] → 0 < p.settings.transitionTime →
      p.frames.find? (fun g => g.duration < p.settings.transitionTime)
        = some f →
      buildGifPrecheck p q = some (.frameDurationLtTransitionTime f.duration
        p.settings.transitionTime))
  ∧ (specCoreViolations p q = [] → 0 < p.settings.transitionTime →
      p.frames.find? (fun g => g.duration < p.settings.transitionTime)
        = none →
      p.settings.transitionSteps < 1 →
      buildGifPrecheck p q = some .transitionStepsLt1) := by
  have hlen : ¬ p.frames.length = 0 := by
    simpa [List.length_eq_zero] using hne
  have hmap := validate_map_toConstraint p q
  have hfst := validate_fst_iff p q
  refine ⟨?_, hmap, ?_, ?_, ?_⟩
  · rw [buildGifPrecheck_eq p q hlen]
    constructor
    · intro hnone
      by_cases hv : (p.validate q).1 = true
      · rw [hv] at hnone
        simp only [Bool.not_true, Bool.false_eq_true, if_false] at hnone
        have herrs : (p.validate q).2 = [] := hfst.mp hv
        have hcore0 : specCoreViolations p q = [] := by
          rw [← hmap, herrs, List.map_nil]
        unfold specViolations
        rw [hcore0, List.nil_append, transViolations_nil_iff]
        intro ht
        rw [if_pos ht] at hnone
        cases hfind : p.frames.find?
            (fun g => g.duration < p.settings.transitionTime) with
        | some g =>
            rw [hfind] at hnone
            exact absurd hnone (by simp)
        | none =>
            rw [hfind] at hnone
            refine ⟨fun g hg => ?_, ?_⟩
            · have := List.find?_eq_none.mp hfind g hg
              simpa using this
            · by_contra hs
              rw [if_pos (by omega)] at hnone
              exact absurd hnone (by simp)
      · have hv' : (!(p.validate q).1) = true := by
          cases hb : (p.validate q).1
          · rfl
          · exact absurd hb hv
        rw [if_pos hv'] at hnone
        exact absurd hnone (by simp)
    · intro hspec
      have hboth := List.append_eq_nil.mp hspec
      have herrs : (p.validate q).2 = [] := by
        have h := hmap
        rw [hboth.1] at h
        exact List.map_eq_nil_iff.mp h
      have hv : (p.validate q).1 = true := hfst.mpr herrs
      rw [hv]
      simp only [Bool.not_true, Bool.false_eq_true, if_false]
      by_cases ht : 0 < p.settings.transitionTime
      · rw [if_pos ht]
        have h2 := (transViolations_nil_iff p).mp hboth.2 ht
        have hfind : p.frames.find?
            (fun g => g.duration < p.settings.transitionTime) = none := by
          apply List.find?_eq_none.mpr
          intro g hg
          simpa using h2.1 g hg
        rw [hfind, if_neg (by omega : ¬ p.settings.transitionSteps < 1)]
      · rw [if_neg ht]
  · intro hc
    rw [buildGifPrecheck_eq p q hlen]
    have herrs : (p.validate q).2 ≠ [] := by
      intro h
      exact hc (by rw [← hmap, h, List.map_nil])
    have hv : (!(p.validate q).1) = true := by
      cases hb : (p.validate q).1
      · rfl
      · exact absurd (hfst.mp hb) herrs
    rw [if_pos hv]
  · intro hc ht hfind
    rw [buildGifPrecheck_eq p q hlen]
    have herrs : (p.validate q).2 = [] := by
      apply List.map_eq_nil_iff.mp
      rw [hmap, hc]
    have hv : (p.validate q).1 = true := hfst.mpr herrs
    rw [hv]
    simp only [Bool.not_true, Bool.false_eq_true, if_false]
    rw [if_pos ht, hfind]
  · intro hc ht hfind hs
    rw [buildGifPrecheck_eq p q hlen]
    have herrs : (p.validate q).2 = [] := by
      apply List.map_eq_nil_iff.mp
      rw [hmap, hc]
    have hv : (p.validate q).1 = true := hfst.mpr herrs
    rw [hv]
    simp only [Bool.not_true, Bool.false_eq_true, if_false]
    rw [if_pos ht, hfind, if_pos hs]

/-- C4 counterexample: `projTwoTransitionViolations` violates two §3
constraints (frame duration 5 below transition time 10, and transition
steps 0 below 1) while `projOneTransitionViolation` violates only the
first, yet the code returns the identical failure value for both — so
the validation failure cannot carry every violated constraint, only
the first transition violation found. -/
theorem validation_error_reporting_counterexample :
    buildGifPrecheck projTwoTransitionViolations defaultQuotas
      = buildGifPrecheck projOneTransitionViolation defaultQuotas
  ∧ buildGifPrecheck projTwoTransitionViolations defaultQuotas
      = some (.frameDurationLtTransitionTime 5 10)
  ∧ specViolations projTwoTransitionViolations defaultQuotas
      ≠ specViolations projOneTransitionViolation defaultQuotas := by
  refine ⟨by decide, by decide, by decide⟩

/-- A valid one-frame project. -/
def projValidOneFrame : Project :=
  { sampleProject with frames := [⟨"f1", "a.png", 100⟩] }

/-- Witness for C4 on a concrete valid one-frame project: the
pre-encode checks pass precisely because no §3 constraint is
violated. -/
theorem validation_error_reporting_witness :
    buildGifPrecheck projValidOneFrame defaultQuotas = none ↔
      specViolations projValidOneFrame defaultQuotas = [] :=
  (validation_error_reporting projValidOneFrame defaultQuotas
    ⟨"f1", "a.png", 100⟩ (by decide)).1

lemma fromDict_toDict_frames (genId : ℕ → String) (l : List Frame) :
    ((l.map Frame.toDict).enum).map
      (fun ie => Frame.fromDict (genId ie.1) ie.2) = l := by
  suffices h : ∀ n, ((l.map Frame.toDict).enumFrom n).map
      (fun ie => Frame.fromDict (genId ie.1) ie.2) = l by
    simpa [List.enum] using h 0
  induction l with
  | nil => intro n; simp
  | cons f t ih =>
      intro n
      rw [List.map_cons, List.enumFrom_cons, List.map_cons, ih (n + 1)]
      rfl

/-- C9 (amended): the wire shape round-trips.  `to_dict` emits `name`,
`created`, `modified`, the settings dict with its seven camelCase keys
(there are no transition-setting keys, see the counterexample), and
the frames as `{id, file, duration}` objects; `from_dict` parses that
shape back into an identical project, defaulting a missing frame
duration to 100 and using a generated id when the `id` entry is
absent. -/
theorem to_from_dict_roundtrip (p : Project) (now : String)
    (genId : ℕ → String) (d : FrameDict) (g : String)
    (hT : p.settings.transitionTimeEntry = none)
    (hS : p.settings.transitionStepsEntry = none) :
    Project.fromDict now genId (Project.toDict p) = p
  ∧ (d.durationEntry = none → (Frame.fromDict g d).duration = 100)
  ∧ (d.idEntry = none → (Frame.fromDict g d).id = g) := by
  refine ⟨?_, fun h => by simp [Frame.fromDict, h], fun h => by simp [Frame.fromDict, h]⟩
  obtain ⟨name, created, modified, settings, frames⟩ := p
  obtain ⟨w, h, lo, dd, tr, bgc, ath, tte, tse⟩ := settings
  simp only [Settings.transitionTimeEntry] at hT
  simp only [Settings.transitionStepsEntry] at hS
  subst hT hS
  simp [Project.fromDict, Project.toDict, Project.init, Settings.toDict,
    getIntD, getBoolD, getStrD, List.lookup, fromDict_toDict_frames]

/-- C9 counterexample: the settings dict serialized by `to_dict` for a
freshly constructed project has no `transitionTime` or
`transitionSteps` entry (nor any other transition-duration/steps
equivalent — `__init__` stores exactly seven settings keys), so the
claimed wire shape "including transitionDurationMs/transitionSteps
equivalents" does not hold. -/
theorem to_dict_settings_no_transition_keys :
    ((Project.toDict sampleProject).settings.lookup "transitionTime" = none)
  ∧ ((Project.toDict sampleProject).settings.lookup "transitionSteps" = none)
  ∧ (Project.toDict sampleProject).settings.map Prod.fst
      = ["width", "height", "loop", "defaultDuration", "transparent",
         "backgroundColor", "alphaThreshold"] := by
  refine ⟨by decide, by decide, by decide⟩

/-- A project with two frames, for the round-trip witness. -/
def roundtripSample : Project :=
  { sampleProject with
    frames := [⟨"f1", "a.png", 50⟩, ⟨"f2", "b.png", 75⟩] }

/-- Witness for C9: the round trip reproduces a concrete two-frame
project exactly. -/
theorem to_from_dict_roundtrip_witness :
    Project.fromDict "t1" (fun _ => "gen") (Project.toDict roundtripSample)
      = roundtripSample :=
  (to_from_dict_roundtrip roundtripSample "t1" (fun _ => "gen")
    ⟨none, "x.png", none⟩ "gen" rfl rfl).1

lemma frameMapLookup_eq_none_iff (frames : List Frame) (fid : String) :
    frameMapLookup frames fid = none ↔ fid ∉ frames.map Frame.id := by
  unfold frameMapLookup
  rw [List.find?_eq_none]
  simp only [List.mem_reverse, beq_iff_eq, List.mem_map]
  constructor
  · rintro h ⟨f, hf, rfl⟩
    exact h f hf rfl
  · rintro h f hf rfl
    exact h ⟨f, hf, rfl⟩

lemma frameMapLookup_mem (frames : List Frame) (fid : String) (f : Frame)
    (h : frameMapLookup frames fid = some f) :
    f ∈ frames ∧ f.id = fid := by
  unfold frameMapLookup at h
  have h1 := List.find?_some h
  have h2 := List.mem_of_find?_eq_some h
  exact ⟨List.mem_reverse.mp h2, by simpa using h1⟩

lemma frameMapLookup_self (frames : List Frame) (f : Frame)
    (hnd : (frames.map Frame.id).Nodup) (hf : f ∈ frames) :
    frameMapLookup frames f.id = some f := by
  unfold frameMapLookup
  cases hfind : frames.reverse.find? (fun g => g.id == f.id) with
  | none =>
      exfalso
      have := List.find?_eq_none.mp hfind f (List.mem_reverse.mpr hf)
      simp at this
  | some g =>
      have hg := List.find?_some hfind
      have hgm := List.mem_of_find?_eq_some hfind
      have hgf : g = f := by
        apply List.inj_on_of_nodup_map hnd (List.mem_reverse.mp hgm) hf
        simpa using hg
      rw [hgf]

/-- C10: for a project whose frames have distinct ids,
`reorder_frames(frame_ids)` produces exactly the existing frames whose
id appears in `frame_ids`, in the order of `frame_ids`: an existing
frame whose id is absent from the list is silently dropped, and ids
matching no frame are ignored. -/
theorem reorder_frames_spec (p : Project) (ids : List String)
    (hnd : (p.frames.map Frame.id).Nodup) :
    ((p.reorderFrames ids).frames.map Frame.id
      = ids.filter (fun fid => fid ∈ p.frames.map Frame.id))
  ∧ (∀ f, f ∈ (p.reorderFrames ids).frames ↔ f ∈ p.frames ∧ f.id ∈ ids) := by
  constructor
  · simp only [Project.reorderFrames]
    induction ids with
    | nil => simp
    | cons i t ih =>
        simp only [List.filterMap_cons, List.filter_cons]
        cases hl : frameMapLookup p.frames i with
        | none =>
            have hni : i ∉ p.frames.map Frame.id :=
              (frameMapLookup_eq_none_iff _ _).mp hl
            simpa [hni] using ih
        | some f =>
            have hmem := frameMapLookup_mem _ _ _ hl
            have hin : i ∈ p.frames.map Frame.id := by
              rw [← hmem.2]
              exact List.mem_map_of_mem _ hmem.1
            simpa [hin, hmem.2] using ih
  · intro f
    simp only [Project.reorderFrames, List.mem_filterMap]
    constructor
    · rintro ⟨i, hi, hl⟩
      have hmem := frameMapLookup_mem _ _ _ hl
      exact ⟨hmem.1, hmem.2 ▸ hi⟩
    · rintro ⟨hf, hid⟩
      exact ⟨f.id, hid, frameMapLookup_self _ _ hnd hf⟩

/-- A project with three frames with distinct ids. -/
def projReorder : Project :=
  { sampleProject with
    frames := [⟨"f1", "a.png", 100⟩, ⟨"f2", "b.png", 100⟩,
               ⟨"f3", "c.png", 100⟩] }

/-- Witness for C10: reordering a concrete three-frame project by
`["f3", "f1", "zzz"]` keeps exactly the frames `f3` then `f1` (the id
`zzz` matches nothing and `f2` is absent from the list, so dropped). -/
theorem reorder_frames_spec_witness :
    (projReorder.reorderFrames ["f3", "f1", "zzz"]).frames.map Frame.id
      = ["f3", "f1", "zzz"].filter
          (fun fid => fid ∈ projReorder.frames.map Frame.id) :=
  (reorder_frames_spec projReorder ["f3", "f1", "zzz"] (by decide)).1

end AniGiffy
